import Mathlib

/-!
Shallow embedding of the paid-tool invocation pipeline of the payflow SDK
(`packages/payflow-sdk/src/index.ts`). External collaborators (the x402
facilitator, the payment decoder, zod schema validation) are passed in as
pure oracles; functions of the external x402 library that the pipeline
calls (`processPriceToAtomicAmount`, `findMatchingPaymentRequirements`)
are modelled from the spec, as noted on their doc comments. Thrown
JavaScript errors are modelled as `Except.error` carrying the error
message; a caught error that is written into a result envelope is
represented by that message string.
-/

/-- Decidable equality on pipeline outcomes, so that witnesses can be settled
by evaluation. -/
instance {e a : Type} [DecidableEq e] [DecidableEq a] : DecidableEq (Except e a) := fun x y =>
  match x, y with
  | Except.error u, Except.error v =>
    if h : u = v then Decidable.isTrue (by rw [h])
    else Decidable.isFalse (by intro hc; cases hc; exact h rfl)
  | Except.error _, Except.ok _ => Decidable.isFalse (by intro hc; cases hc)
  | Except.ok _, Except.error _ => Decidable.isFalse (by intro hc; cases hc)
  | Except.ok u, Except.ok v =>
    if h : u = v then Decidable.isTrue (by rw [h])
    else Decidable.isFalse (by intro hc; cases hc; exact h rfl)

namespace Payflow

/-- Decoded x402 payment payload (`PaymentPayload` of x402/types), reduced to
the fields the pipeline reads: the protocol version it overwrites and the
`{scheme, network}` pair used for requirement matching. -/
structure PaymentPayload where
  x402Version : Nat
  scheme : String
  network : String
deriving DecidableEq

/-- Asset metadata resolved for a network by the external x402 library:
contract address, decimals and the EIP-712 domain. -/
structure AssetInfo where
  address : String
  decimals : Nat
  eip712Name : String
  eip712Version : String
deriving DecidableEq

/-- One payment requirement descriptor (`PaymentRequirements` of x402/types),
with `extra` flattened into its two fields. -/
structure PaymentRequirements where
  scheme : String
  network : String
  maxAmountRequired : String
  resource : String
  description : String
  mimeType : String
  payTo : String
  maxTimeoutSeconds : Nat
  asset : String
  extraName : String
  extraVersion : String
deriving DecidableEq

/-- Facilitator verification response (`VerifyResponse` of x402/types). -/
structure VerifyResponse where
  isValid : Bool
  invalidReason : Option String
deriving DecidableEq

/-- Facilitator settlement response (`SettleResponse` of x402/types). -/
structure SettleResponse where
  success : Bool
  transaction : String
  errorReason : Option String
deriving DecidableEq

/-- One content segment of an MCP tool result. A segment produced without an
`isError` property is modelled with `isError := false`. -/
structure ContentItem where
  type : String
  text : String
  isError : Bool
deriving DecidableEq

/-- An MCP `CallToolResult`: an ordered list of content segments. -/
structure CallToolResult where
  content : List ContentItem
deriving DecidableEq

/-- The uniform rejection envelope built on every caught pipeline error:
`{ content: [{ type: 'text', text: error, isError: true }] }`. -/
def errEnvelope (msg : String) : CallToolResult :=
  { content := [{ type := "text", text := msg, isError := true }] }

/-- Modelled from the spec: `processPriceToAtomicAmount` of the external
x402 library (not under this repository's sources) converts a human price
into the atomic integer unit of the settlement asset for the target
network — `round(price × 10^assetDecimals)` — and fails loudly when the
network's asset metadata cannot be resolved. The metadata lookup is the
`assetFor` oracle. The rounding `⌊price·10^d + 1/2⌋` is computed on the
rational's numerator and denominator as
`(2·num·10^d + den) fdiv (2·den)`, which equals it since `den > 0`. -/
def processPriceToAtomicAmount (assetFor : String → Option AssetInfo)
    (price : Rat) (network : String) : Except String (String × AssetInfo) :=
  match assetFor network with
  | none => Except.error ("Unsupported network: " ++ network)
  | some a =>
    Except.ok
      (toString (Int.fdiv (2 * price.num * (10 : Int) ^ a.decimals + (price.den : Int))
        (2 * (price.den : Int))), a)

/-- Modelled from the spec: `findMatchingPaymentRequirements` of the external
x402 library matches a candidate against the decoded token using only
`{scheme, network}` equality (also stated by the NOTE comment at the call
site in `generateRequirements`), returning the first match. -/
def findMatchingPaymentRequirements (paymentRequirementsList : List PaymentRequirements)
    (payload : PaymentPayload) : Option PaymentRequirements :=
  paymentRequirementsList.find? fun r =>
    r.scheme == payload.scheme && r.network == payload.network

/-- `PayflowMcpServer.generateRequirements`: builds the single candidate
requirement from the price, recipient and network, then selects the one
matching the decoded payload, throwing
`'No matching payment requirements found'` when there is none. -/
def generateRequirements (assetFor : String → Option AssetInfo)
    (payload : PaymentPayload) (tool : String) (price : Rat)
    (recipient : String) (network : String) : Except String PaymentRequirements :=
  match processPriceToAtomicAmount assetFor price network with
  | Except.error e => Except.error e
  | Except.ok (maxAmountRequired, asset) =>
    let paymentRequirementsList : List PaymentRequirements :=
      [{ scheme := "exact"
         network := network
         maxAmountRequired := maxAmountRequired
         resource := tool
         description := ""
         mimeType := "text/plain"
         payTo := recipient
         maxTimeoutSeconds := 60
         asset := asset.address
         extraName := asset.eip712Name
         extraVersion := asset.eip712Version }]
    match findMatchingPaymentRequirements paymentRequirementsList payload with
    | none => Except.error "No matching payment requirements found"
    | some selected => Except.ok selected

/-- `enrichVerificationError`: the fixed reason → human-message table applied
to the facilitator's rejection reason (the message of the returned
`Error`). The default arm treats an absent or empty reason as
`'unknown reason'`, mirroring `reason || 'unknown reason'`. -/
def enrichVerificationError (requirements : PaymentRequirements)
    (reason : Option String) : String :=
  match reason with
  | some "insufficient_funds" =>
    "insufficient_funds: Insufficient funds for payment. Required: " ++
      requirements.maxAmountRequired
  | some "invalid_exact_evm_payload_authorization_valid_after" =>
    "invalid_exact_evm_payload_authorization_valid_after: Invalid validAfter value in the payment"
  | some "invalid_exact_evm_payload_authorization_valid_before" =>
    "invalid_exact_evm_payload_authorization_valid_before: Invalid validBefore value in the payment"
  | some "invalid_exact_evm_payload_authorization_value" =>
    "invalid_exact_evm_payload_authorization_value: The value of the payment is incorrect, it should be " ++
      requirements.maxAmountRequired
  | some "invalid_exact_evm_payload_signature" =>
    "invalid_exact_evm_payload_signature: Invalid signature in the payment"
  | some "invalid_exact_evm_payload_recipient_mismatch" =>
    "invalid_exact_evm_payload_recipient_mismatch: Recipient mismatch in the payment. Pay to: " ++
      requirements.payTo
  | some "invalid_network" =>
    "invalid_network: Invalid network in the payment. Network: " ++ requirements.network
  | some r => "Payment verification failed: " ++ (if r.isEmpty then "unknown reason" else r)
  | none => "Payment verification failed: unknown reason"

/-- The facilitator adapters and the external decoder, as pure oracles: the
repository's constructor obtains `verify`/`settle` from
`useFacilitator(createFacilitatorConfig(...))` and the decoder is
`exact.evm.decodePayment` of the x402 library. `assetFor` is the network
asset-metadata lookup behind `processPriceToAtomicAmount`. -/
structure Facilitator where
  decodePayment : String → Except String PaymentPayload
  verify : PaymentPayload → PaymentRequirements → VerifyResponse
  settle : PaymentPayload → PaymentRequirements → SettleResponse
  assetFor : String → Option AssetInfo

/-- `PayflowMcpServer.verifyPayment`: calls the facilitator's verify and
throws the enriched verification error when the response is not valid. -/
def verifyPayment (verify : PaymentPayload → PaymentRequirements → VerifyResponse)
    (payload : PaymentPayload) (requirements : PaymentRequirements) : Except String Unit :=
  let verifyResponse := verify payload requirements
  if !verifyResponse.isValid then
    Except.error (enrichVerificationError requirements verifyResponse.invalidReason)
  else
    Except.ok ()

/-- `PayflowMcpServer.settlePayment`: calls the facilitator's settle and
throws `Error(settleResponse.errorReason)` when it did not succeed (an
absent reason yields the empty message, as `new Error(undefined)` does). -/
def settlePayment (settle : PaymentPayload → PaymentRequirements → SettleResponse)
    (payload : PaymentPayload) (paymentRequirements : PaymentRequirements) :
    Except String SettleResponse :=
  let settleResponse := settle payload paymentRequirements
  if !settleResponse.success then
    Except.error (settleResponse.errorReason.getD "")
  else
    Except.ok settleResponse

/-- Declared tool arguments (the call's `args` minus the `payment` field),
reaching the handler unchanged; an opaque finite map suffices. -/
abbrev ToolArgs := List (String × String)

/-- The per-call `RequestHandlerExtra` context, forwarded opaquely. -/
abbrev InvocationContext := String

/-- A wrapped tool handler. The two constructors model the two declared
arities the controller dispatches on (`cb.length > 1` picks the
`(args, context)` convention, otherwise `(context)` alone); a handler that
throws is an `Except.error` carrying the message. -/
inductive ToolCallback where
  | withArgs (f : ToolArgs → InvocationContext → Except String CallToolResult)
  | contextOnly (f : InvocationContext → Except String CallToolResult)

/-- Step 2 of the pipeline: invoke the wrapped handler with the convention
its declared parameter count selects. -/
def runToolCallback : ToolCallback → ToolArgs → InvocationContext →
    Except String CallToolResult
  | ToolCallback.withArgs f, toolArgs, context => f toolArgs context
  | ToolCallback.contextOnly f, _, context => f context

/-- How many times each external collaborator was invoked during one call of
the paid callback (instrumentation for the spec's call-count assertions). -/
structure CallTrace where
  verifyCalls : Nat
  handlerCalls : Nat
  settleCalls : Nat
deriving DecidableEq

/-- The arguments object the registry hands the paid callback, after the
destructuring `const { payment, ...toolArgs } = args`. -/
structure PaidArgs where
  payment : String
  toolArgs : ToolArgs

/-- `PayflowMcpServer.createPaidCallback`, the paid invocation controller.
`schemaParse` is the zod validator `schema.parse` on the declared
parameters and `x402Version` the resolved `options.x402.version ?? 1`.
The result pairs the callback's outcome — `Except.error` is an uncaught
throw propagating out of the callback, `Except.ok` a returned result —
with the trace of facilitator/handler invocations. `schema.parse` and
`exact.evm.decodePayment` run outside every `try`, so their errors
propagate raw; the four later stages catch and return `errEnvelope`. -/
def createPaidCallback (fac : Facilitator) (x402Version : Nat) (name : String)
    (price : Rat) (recipient : String)
    (schemaParse : ToolArgs → Except String Unit) (cb : ToolCallback)
    (args : PaidArgs) (context : InvocationContext) :
    Except String CallToolResult × CallTrace :=
  match schemaParse args.toolArgs with
  | Except.error e => (Except.error e, ⟨0, 0, 0⟩)
  | Except.ok _ =>
    match fac.decodePayment args.payment with
    | Except.error e => (Except.error e, ⟨0, 0, 0⟩)
    | Except.ok decoded =>
      let payload := { decoded with x402Version := x402Version }
      match generateRequirements fac.assetFor payload name price recipient "base" with
      | Except.error e => (Except.ok (errEnvelope e), ⟨0, 0, 0⟩)
      | Except.ok requirements =>
        match verifyPayment fac.verify payload requirements with
        | Except.error e => (Except.ok (errEnvelope e), ⟨1, 0, 0⟩)
        | Except.ok _ =>
          match runToolCallback cb args.toolArgs context with
          | Except.error e => (Except.ok (errEnvelope e), ⟨1, 1, 0⟩)
          | Except.ok result =>
            match settlePayment fac.settle payload requirements with
            | Except.error e => (Except.ok (errEnvelope e), ⟨1, 1, 1⟩)
            | Except.ok settleResponse =>
              (Except.ok { content := result.content ++
                  [{ type := "text"
                     text := "Payment: " ++ settleResponse.transaction
                     isError := false }] },
               ⟨1, 1, 1⟩)

/-- Structural descriptor of one property value of a JavaScript object that
`paidTool` inspects: whether the value is zod-like (has callable `parse`
and `safeParse`, the test of `isZodTypeLike`), and — when it is a schema
field validator — its type, `.describe(...)` text and requiredness. -/
structure JSField where
  zodLike : Bool
  ftype : String
  fdesc : String
  freq : Bool
deriving DecidableEq

/-- One positional argument handed to `paidTool` after the name, described
structurally: a string, a non-null object with its named properties, a
function of a declared arity, `null` (whose `typeof` is `'object'` but
which fails the `!== null` checks), or any other value. -/
inductive JSArg where
  | str (s : String)
  | obj (fields : List (String × JSField))
  | func (arity : Nat)
  | jsNull
  | other
deriving DecidableEq

/-- `typeof a === 'object' && a !== null`. -/
def isObjNonNull : JSArg → Bool
  | JSArg.obj _ => true
  | _ => false

/-- `key in a` for a non-null object, false for every other argument. -/
def hasKey (a : JSArg) (key : String) : Bool :=
  match a with
  | JSArg.obj fields => fields.any fun kv => kv.1 == key
  | _ => false

/-- `isZodRawShape`: a non-null object that is empty or has at least one
zod-like property value. -/
def isZodRawShape : JSArg → Bool
  | JSArg.obj fields => fields.isEmpty || fields.any fun kv => kv.2.zodLike
  | _ => false

/-- The `paidTool` test recognising a `PaymentOptions` argument: a non-null
object containing both a `price` and a `recipient` property. -/
def isPaymentOptionsArg (a : JSArg) : Bool :=
  isObjNonNull a && hasKey a "price" && hasKey a "recipient"

/-- The check of step 3/4 of `paidTool` recognising a `ToolAnnotations`
argument: a non-null object containing a `title` property. -/
def isAnnotationsArg (a : JSArg) : Bool :=
  isObjNonNull a && hasKey a "title"

/-- `paidTool` step 1: shift a leading string off `rest` as the description. -/
def takeDescription : List JSArg → Option String × List JSArg
  | JSArg.str s :: t => (some s, t)
  | l => (none, l)

/-- `paidTool` step 2: shift a leading `PaymentOptions`-shaped object. -/
def takePaymentOptions : List JSArg → Option JSArg × List JSArg
  | a :: t => if isPaymentOptionsArg a then (some a, t) else (none, a :: t)
  | [] => (none, [])

/-- `paidTool` step 3: shift a leading zod raw shape as the input schema,
else a leading title-bearing object as the annotations. -/
def takeSchemaOrAnnotationsStep : List JSArg → Option JSArg × Option JSArg × List JSArg
  | a :: t =>
    if isZodRawShape a then (some a, none, t)
    else if isAnnotationsArg a then (none, some a, t)
    else (none, none, a :: t)
  | [] => (none, none, [])

/-- `paidTool` step 4: shift a leading title-bearing object as annotations
(run unconditionally, overwriting any annotations step 3 already took). -/
def takeAnnotationsStep : List JSArg → Option JSArg × List JSArg
  | a :: t => if isAnnotationsArg a then (some a, t) else (none, a :: t)
  | [] => (none, [])

/-- The injected payment parameter:
`z.string().describe('The x402 payment header for the query.')`. -/
def paymentField : JSField :=
  { zodLike := true
    ftype := "string"
    fdesc := "The x402 payment header for the query."
    freq := true }

/-- The effective parameter schema: `{ ...inputSchema, payment }` with
JavaScript property-order semantics (an existing `payment` key keeps its
position and gets its value overwritten; otherwise `payment` is appended),
or `paymentSchema.shape` alone when no input schema was recognised. -/
def buildFinalSchema : Option (List (String × JSField)) → List (String × JSField)
  | none => [("payment", paymentField)]
  | some inputSchema =>
    if inputSchema.any fun kv => kv.1 == "payment" then
      inputSchema.map fun kv =>
        if kv.1 == "payment" then ("payment", paymentField) else kv
    else
      inputSchema ++ [("payment", paymentField)]

/-- The property values of an object argument (empty for any other shape;
only applied to arguments `isZodRawShape` accepted, which are objects). -/
def objFields : JSArg → List (String × JSField)
  | JSArg.obj fields => fields
  | _ => []

/-- The normalised registration record `paidTool` hands to `this.tool`: the
resolved optional description, the recognised `PaymentOptions` argument,
the recognised input schema (as its field list), the effective schema
including the injected `payment` field, the resolved annotations and the
tail argument taken as the handler (`rest[0]`, possibly absent and never
checked to be a function). The human-readable description interpolates the
price and recipient property values, which the structural argument model
does not carry, so that string is not represented. -/
structure Registration where
  name : String
  description : Option String
  paymentOptions : JSArg
  inputSchema : Option (List (String × JSField))
  finalSchema : List (String × JSField)
  toolAnnotations : Option JSArg
  cb : Option JSArg
deriving DecidableEq

/-- `PayflowMcpServer.paidTool` implementation: positional-shape sniffing
over the trailing arguments, the two registration-time error throws, and
the construction of the record registered with the underlying registry.
`Except.error` is a throw — the tool is then never registered. -/
def paidTool (name : String) (rest0 : List JSArg) : Except String Registration :=
  let description := (takeDescription rest0).1
  let rest1 := (takeDescription rest0).2
  let paymentOptions := (takePaymentOptions rest1).1
  let rest2 := (takePaymentOptions rest1).2
  let inputSchemaArg := (takeSchemaOrAnnotationsStep rest2).1
  let annotationsTakenEarly := (takeSchemaOrAnnotationsStep rest2).2.1
  let rest3 := (takeSchemaOrAnnotationsStep rest2).2.2
  let annotationsTakenLate := (takeAnnotationsStep rest3).1
  let rest4 := (takeAnnotationsStep rest3).2
  let toolAnnotations := annotationsTakenLate.orElse fun _ => annotationsTakenEarly
  if rest4.length > 1 then
    Except.error "Too many arguments to paidTool()"
  else
    match paymentOptions with
    | none => Except.error "PaymentOptions are required for paidTool()"
    | some po =>
      let inputSchema := inputSchemaArg.map objFields
      Except.ok
        { name := name
          description := description
          paymentOptions := po
          inputSchema := inputSchema
          finalSchema := buildFinalSchema inputSchema
          toolAnnotations := toolAnnotations
          cb := rest4.head? }

/-! Concrete fixtures used by the witnesses: a facilitator whose oracles
all succeed, a handler returning one text segment, and the requirement
record the generator produces for them. -/

def wAsset : AssetInfo := ⟨"0xUSDC", 6, "USDC", "2"⟩

def wAssetFor : String → Option AssetInfo :=
  fun n => if n == "base" then some wAsset else none

def wFac : Facilitator :=
  { decodePayment := fun s =>
      if s == "tok" then Except.ok ⟨1, "exact", "base"⟩ else Except.error "invalid payment token"
    verify := fun _ _ => ⟨true, none⟩
    settle := fun _ _ => ⟨true, "0xTX", none⟩
    assetFor := wAssetFor }

def wCb : ToolCallback :=
  ToolCallback.contextOnly fun _ => Except.ok ⟨[⟨"text", "hi", false⟩]⟩

def wParse : ToolArgs → Except String Unit := fun _ => Except.ok ()

def wReq : PaymentRequirements :=
  { scheme := "exact"
    network := "base"
    maxAmountRequired := "1000000"
    resource := "t"
    description := ""
    mimeType := "text/plain"
    payTo := "0xR"
    maxTimeoutSeconds := 60
    asset := "0xUSDC"
    extraName := "USDC"
    extraVersion := "2" }

/-- The decoded payload the witness facilitators return. -/
def wPayload : PaymentPayload := ⟨1, "exact", "base"⟩

/-- Facilitator whose verification always rejects with insufficient funds. -/
def wFacInvalid : Facilitator :=
  { wFac with verify := fun _ _ => ⟨false, some "insufficient_funds"⟩ }

/-- Facilitator whose settlement always fails with a reported reason. -/
def wFacSettleFail : Facilitator :=
  { wFac with settle := fun _ _ => ⟨false, "", some "settlement rejected by facilitator"⟩ }

/-- Facilitator decoding every token to a payload on network `ethereum`,
mismatching the generated `base` requirement. -/
def wFacWrongNetwork : Facilitator :=
  { wFac with decodePayment := fun _ => Except.ok ⟨1, "exact", "ethereum"⟩ }

/-- Facilitator whose payment decoder always throws, exhibiting the raw
exception escaping the paid callback. -/
def cFacDecodeFail : Facilitator :=
  { wFac with decodePayment := fun _ => Except.error "invalid payment token" }

/-- `typeof a === 'function'`. -/
def isFunctionArg : JSArg → Bool
  | JSArg.func _ => true
  | _ => false

/-- A `PaymentOptions`-shaped argument (its property values are structural
descriptors; they are not zod-like). -/
def poArg : JSArg :=
  JSArg.obj [("price", ⟨false, "number", "", true⟩), ("recipient", ⟨false, "string", "", true⟩)]

/-- The record `paidTool` registers when handed only a `PaymentOptions`
argument and nothing else: no handler was supplied and none is recorded,
yet no error is thrown. -/
def regNoHandler : Registration :=
  { name := "t"
    description := none
    paymentOptions := poArg
    inputSchema := none
    finalSchema := [("payment", paymentField)]
    toolAnnotations := none
    cb := none }

/-- A declared zod string field for the amended-C9 witness. -/
def zodStrField : JSField := { zodLike := true, ftype := "string", fdesc := "", freq := true }

/-- The registration the amended-C9 witness produces: declared schema with
one `account` field plus the injected `payment` field. -/
def c9Reg : Registration :=
  { name := "t"
    description := none
    paymentOptions := poArg
    inputSchema := some [("account", zodStrField)]
    finalSchema := [("account", zodStrField), ("payment", paymentField)]
    toolAnnotations := none
    cb := some (JSArg.func 2) }

/-! Helper lemmas about the individual pipeline stages. -/

theorem verifyPayment_of_isValid {v : PaymentPayload → PaymentRequirements → VerifyResponse}
    {p : PaymentPayload} {r : PaymentRequirements} (h : (v p r).isValid = true) :
    verifyPayment v p r = Except.ok () := by
  unfold verifyPayment
  simp [h]

theorem verifyPayment_of_not_isValid {v : PaymentPayload → PaymentRequirements → VerifyResponse}
    {p : PaymentPayload} {r : PaymentRequirements} (h : (v p r).isValid = false) :
    verifyPayment v p r = Except.error (enrichVerificationError r (v p r).invalidReason) := by
  unfold verifyPayment
  simp [h]

theorem verifyPayment_ok_isValid {v : PaymentPayload → PaymentRequirements → VerifyResponse}
    {p : PaymentPayload} {r : PaymentRequirements} {u : Unit}
    (h : verifyPayment v p r = Except.ok u) : (v p r).isValid = true := by
  unfold verifyPayment at h
  by_cases hb : (v p r).isValid = true
  · exact hb
  · simp [hb] at h

theorem settlePayment_of_success {s : PaymentPayload → PaymentRequirements → SettleResponse}
    {p : PaymentPayload} {r : PaymentRequirements} (h : (s p r).success = true) :
    settlePayment s p r = Except.ok (s p r) := by
  unfold settlePayment
  simp [h]

theorem settlePayment_of_not_success {s : PaymentPayload → PaymentRequirements → SettleResponse}
    {p : PaymentPayload} {r : PaymentRequirements} (h : (s p r).success = false) :
    settlePayment s p r = Except.error ((s p r).errorReason.getD "") := by
  unfold settlePayment
  simp [h]

theorem generateRequirements_of_asset {assetFor : String → Option AssetInfo}
    {network : String} {a : AssetInfo} (payload : PaymentPayload) (tool : String)
    (price : Rat) (recipient : String) (ha : assetFor network = some a) :
    generateRequirements assetFor payload tool price recipient network =
      if "exact" == payload.scheme && network == payload.network then
        Except.ok
          { scheme := "exact"
            network := network
            maxAmountRequired := toString (Int.fdiv
              (2 * price.num * (10 : Int) ^ a.decimals + (price.den : Int))
              (2 * (price.den : Int)))
            resource := tool
            description := ""
            mimeType := "text/plain"
            payTo := recipient
            maxTimeoutSeconds := 60
            asset := a.address
            extraName := a.eip712Name
            extraVersion := a.eip712Version }
      else Except.error "No matching payment requirements found" := by
  unfold generateRequirements processPriceToAtomicAmount findMatchingPaymentRequirements
  rw [ha]
  by_cases hc : ("exact" == payload.scheme && network == payload.network) = true
  · simp [List.find?, hc]
  · simp only [Bool.not_eq_true] at hc
    simp [List.find?, hc]

theorem generateRequirements_of_no_asset {assetFor : String → Option AssetInfo}
    {network : String} (payload : PaymentPayload) (tool : String)
    (price : Rat) (recipient : String) (ha : assetFor network = none) :
    generateRequirements assetFor payload tool price recipient network =
      Except.error ("Unsupported network: " ++ network) := by
  unfold generateRequirements processPriceToAtomicAmount
  rw [ha]

/-- C10: for every paid tool invocation — the controller always invokes
`generateRequirements` with the hardcoded network `'base'`, whatever
`PaymentOptions.network` and `PaymentOptions.asset` were registered (the
facade forwards only `price` and `recipient`) — any requirement the
generator returns has network `'base'`, scheme `'exact'`, mimeType
`'text/plain'`, maxTimeoutSeconds 60, and payTo the registered
recipient. -/
theorem requirement_constant_fields (assetFor : String → Option AssetInfo)
    (payload : PaymentPayload) (tool : String) (price : Rat) (recipient : String)
    (req : PaymentRequirements)
    (h : generateRequirements assetFor payload tool price recipient "base" = Except.ok req) :
    req.network = "base" ∧ req.scheme = "exact" ∧ req.mimeType = "text/plain" ∧
      req.maxTimeoutSeconds = 60 ∧ req.payTo = recipient := by
  cases ha : assetFor "base" with
  | none =>
    rw [generateRequirements_of_no_asset payload tool price recipient ha] at h
    exact absurd h (by simp)
  | some a =>
    rw [generateRequirements_of_asset payload tool price recipient ha] at h
    by_cases hc : ("exact" == payload.scheme && "base" == payload.network) = true
    · rw [if_pos hc] at h
      cases h
      exact ⟨rfl, rfl, rfl, rfl, rfl⟩
    · rw [if_neg hc] at h
      exact absurd h (by simp)

/-- C1: the settle operation is invoked (the call trace counts a settle
call) only if the verify operation returned `isValid` for the decoded
payload and selected requirements, and the wrapped handler returned
without throwing; on any verification failure or handler exception the
settle count of that invocation stays 0. -/
theorem settlement_requires_valid_verification_and_handler_success
    (fac : Facilitator) (ver : Nat) (name : String) (price : Rat) (recipient : String)
    (schemaParse : ToolArgs → Except String Unit) (cb : ToolCallback)
    (args : PaidArgs) (context : InvocationContext)
    (h : 0 < (createPaidCallback fac ver name price recipient schemaParse cb
      args context).2.settleCalls) :
    ∃ decoded requirements result,
      fac.decodePayment args.payment = Except.ok decoded ∧
      generateRequirements fac.assetFor { decoded with x402Version := ver }
        name price recipient "base" = Except.ok requirements ∧
      (fac.verify { decoded with x402Version := ver } requirements).isValid = true ∧
      runToolCallback cb args.toolArgs context = Except.ok result := by
  unfold createPaidCallback at h
  cases hsp : schemaParse args.toolArgs with
  | error e => simp only [hsp] at h; simp at h
  | ok u =>
    simp only [hsp] at h
    cases hdec : fac.decodePayment args.payment with
    | error e => simp only [hdec] at h; simp at h
    | ok decoded =>
      simp only [hdec] at h
      cases hgen : generateRequirements fac.assetFor { decoded with x402Version := ver }
          name price recipient "base" with
      | error e => simp only [hgen] at h; simp at h
      | ok requirements =>
        simp only [hgen] at h
        cases hv : verifyPayment fac.verify { decoded with x402Version := ver } requirements with
        | error e => simp only [hv] at h; simp at h
        | ok u2 =>
          simp only [hv] at h
          cases hcb : runToolCallback cb args.toolArgs context with
          | error e => simp only [hcb] at h; simp at h
          | ok result =>
            exact ⟨decoded, requirements, result, rfl, hgen,
              verifyPayment_ok_isValid hv, rfl⟩

theorem settlement_gate_witness :
    0 < (createPaidCallback wFac 1 "t" 1 "0xR" wParse wCb ⟨"tok", []⟩ "ctx").2.settleCalls ∧
      ∃ decoded requirements result,
        wFac.decodePayment "tok" = Except.ok decoded ∧
        generateRequirements wFac.assetFor { decoded with x402Version := 1 }
          "t" 1 "0xR" "base" = Except.ok requirements ∧
        (wFac.verify { decoded with x402Version := 1 } requirements).isValid = true ∧
        runToolCallback wCb [] "ctx" = Except.ok result :=
  ⟨by decide,
    settlement_requires_valid_verification_and_handler_success wFac 1 "t" 1 "0xR"
      wParse wCb ⟨"tok", []⟩ "ctx" (by decide)⟩

theorem requirement_constant_fields_witness :
    generateRequirements wAssetFor ⟨1, "exact", "base"⟩ "t" 1 "0xR" "base" = Except.ok wReq ∧
      (wReq.network = "base" ∧ wReq.scheme = "exact" ∧ wReq.mimeType = "text/plain" ∧
        wReq.maxTimeoutSeconds = 60 ∧ wReq.payTo = "0xR") :=
  ⟨by decide,
    requirement_constant_fields wAssetFor ⟨1, "exact", "base"⟩ "t" 1 "0xR" wReq (by decide)⟩

/-- C3: whenever the verify operation rejects the payment (`isValid` false,
for any rejection reason), the wrapped handler is never invoked (its call
count stays 0) and the envelope returned carries a single text content
item with `isError` true (the enriched verification message). -/
theorem invalid_verification_blocks_handler
    (fac : Facilitator) (ver : Nat) (name : String) (price : Rat) (recipient : String)
    (schemaParse : ToolArgs → Except String Unit) (cb : ToolCallback)
    (args : PaidArgs) (context : InvocationContext)
    (decoded : PaymentPayload) (req : PaymentRequirements)
    (hsp : schemaParse args.toolArgs = Except.ok ())
    (hdec : fac.decodePayment args.payment = Except.ok decoded)
    (hgen : generateRequirements fac.assetFor { decoded with x402Version := ver }
      name price recipient "base" = Except.ok req)
    (hv : (fac.verify { decoded with x402Version := ver } req).isValid = false) :
    (createPaidCallback fac ver name price recipient schemaParse cb
        args context).2.handlerCalls = 0 ∧
      (createPaidCallback fac ver name price recipient schemaParse cb args context).1 =
        Except.ok { content :=
          [{ type := "text",
             text := enrichVerificationError req
               (fac.verify { decoded with x402Version := ver } req).invalidReason,
             isError := true }] } := by
  unfold createPaidCallback
  simp only [hsp, hdec, hgen, verifyPayment_of_not_isValid hv]
  refine ⟨?_, ?_⟩ <;> trivial

/-- C4: when decoding, requirements generation, verification, the handler
and settlement all succeed, the returned result is the handler's result
with exactly one additional trailing text segment
`"Payment: <tx>"` for the settler's transaction reference, every earlier
segment unchanged and in its original order. -/
theorem success_appends_payment_segment
    (fac : Facilitator) (ver : Nat) (name : String) (price : Rat) (recipient : String)
    (schemaParse : ToolArgs → Except String Unit) (cb : ToolCallback)
    (args : PaidArgs) (context : InvocationContext)
    (decoded : PaymentPayload) (req : PaymentRequirements) (result : CallToolResult)
    (hsp : schemaParse args.toolArgs = Except.ok ())
    (hdec : fac.decodePayment args.payment = Except.ok decoded)
    (hgen : generateRequirements fac.assetFor { decoded with x402Version := ver }
      name price recipient "base" = Except.ok req)
    (hv : (fac.verify { decoded with x402Version := ver } req).isValid = true)
    (hcb : runToolCallback cb args.toolArgs context = Except.ok result)
    (hsettle : (fac.settle { decoded with x402Version := ver } req).success = true) :
    (createPaidCallback fac ver name price recipient schemaParse cb args context).1 =
      Except.ok { content := result.content ++
        [{ type := "text",
           text := "Payment: " ++
             (fac.settle { decoded with x402Version := ver } req).transaction,
           isError := false }] } := by
  unfold createPaidCallback
  simp only [hsp, hdec, hgen, verifyPayment_of_isValid hv, hcb,
    settlePayment_of_success hsettle]

/-- C5: when the handler returned successfully but settlement then failed
with a reported reason, the returned envelope is marked errored
(`isError` true) and its text is exactly the settler's failure reason —
the reason appears verbatim, and the reported error is the settlement
failure, not a handler failure (the handler's own outcome, counted once,
was error-free). -/
theorem settle_failure_reports_reason_verbatim
    (fac : Facilitator) (ver : Nat) (name : String) (price : Rat) (recipient : String)
    (schemaParse : ToolArgs → Except String Unit) (cb : ToolCallback)
    (args : PaidArgs) (context : InvocationContext)
    (decoded : PaymentPayload) (req : PaymentRequirements) (result : CallToolResult)
    (reason : String)
    (hsp : schemaParse args.toolArgs = Except.ok ())
    (hdec : fac.decodePayment args.payment = Except.ok decoded)
    (hgen : generateRequirements fac.assetFor { decoded with x402Version := ver }
      name price recipient "base" = Except.ok req)
    (hv : (fac.verify { decoded with x402Version := ver } req).isValid = true)
    (hcb : runToolCallback cb args.toolArgs context = Except.ok result)
    (hfail : (fac.settle { decoded with x402Version := ver } req).success = false)
    (hreason : (fac.settle { decoded with x402Version := ver } req).errorReason =
      some reason) :
    (createPaidCallback fac ver name price recipient schemaParse cb
        args context).2.handlerCalls = 1 ∧
      (createPaidCallback fac ver name price recipient schemaParse cb args context).1 =
        Except.ok { content := [{ type := "text", text := reason, isError := true }] } := by
  unfold createPaidCallback
  simp only [hsp, hdec, hgen, verifyPayment_of_isValid hv, hcb,
    settlePayment_of_not_success hfail, hreason, Option.getD_some]
  refine ⟨?_, ?_⟩ <;> trivial

/-- C6: when the decoded token's `{scheme, network}` pair does not match the
single generated requirement (scheme `'exact'` on network `'base'`), the
invocation is rejected with the envelope
`'No matching payment requirements found'` before verify or settle is
invoked: both call counts stay 0. -/
theorem scheme_network_mismatch_early_rejection
    (fac : Facilitator) (ver : Nat) (name : String) (price : Rat) (recipient : String)
    (schemaParse : ToolArgs → Except String Unit) (cb : ToolCallback)
    (args : PaidArgs) (context : InvocationContext)
    (decoded : PaymentPayload) (a : AssetInfo)
    (hsp : schemaParse args.toolArgs = Except.ok ())
    (hdec : fac.decodePayment args.payment = Except.ok decoded)
    (hasset : fac.assetFor "base" = some a)
    (hmm : ¬(decoded.scheme = "exact" ∧ decoded.network = "base")) :
    (createPaidCallback fac ver name price recipient schemaParse cb args context).1 =
        Except.ok (errEnvelope "No matching payment requirements found") ∧
      (createPaidCallback fac ver name price recipient schemaParse cb
        args context).2.verifyCalls = 0 ∧
      (createPaidCallback fac ver name price recipient schemaParse cb
        args context).2.settleCalls = 0 := by
  have hcond : ("exact" == ({ decoded with x402Version := ver } : PaymentPayload).scheme &&
      "base" == ({ decoded with x402Version := ver } : PaymentPayload).network) = false := by
    simp only [Bool.and_eq_false_iff, beq_eq_false_iff_ne, ne_eq]
    by_cases hs : decoded.scheme = "exact"
    · right
      intro hn
      exact hmm ⟨hs, hn.symm⟩
    · left
      intro hs2
      exact hs hs2.symm
  have hgen : generateRequirements fac.assetFor { decoded with x402Version := ver }
      name price recipient "base" = Except.error "No matching payment requirements found" := by
    rw [generateRequirements_of_asset { decoded with x402Version := ver } name price
      recipient hasset, if_neg]
    rw [hcond]
    exact Bool.false_ne_true
  unfold createPaidCallback
  simp only [hsp, hdec, hgen]
  refine ⟨?_, ?_, ?_⟩ <;> trivial

/-- C2, corrected form: classification of every outcome of the paid
callback. An uncaught (raw) exception escapes the callback exactly when
the zod schema validation on the declared parameters or the payment-token
decode threw — those two run outside every `try` block; every other
outcome is a returned structured result, namely the single-text-item
`errEnvelope` with `isError` true for a requirements, verification,
handler or settlement failure, or the handler result with the appended
payment segment on full success. -/
theorem pipeline_failure_envelope_classification
    (fac : Facilitator) (ver : Nat) (name : String) (price : Rat) (recipient : String)
    (schemaParse : ToolArgs → Except String Unit) (cb : ToolCallback)
    (args : PaidArgs) (context : InvocationContext) :
    (∃ e, (createPaidCallback fac ver name price recipient schemaParse cb
        args context).1 = Except.error e ∧
      (schemaParse args.toolArgs = Except.error e ∨
        fac.decodePayment args.payment = Except.error e)) ∨
    (∃ msg, (createPaidCallback fac ver name price recipient schemaParse cb
        args context).1 = Except.ok (errEnvelope msg)) ∨
    (∃ result tx, (createPaidCallback fac ver name price recipient schemaParse cb
        args context).1 = Except.ok { content := result.content ++
          [{ type := "text", text := "Payment: " ++ tx, isError := false }] } ∧
      runToolCallback cb args.toolArgs context = Except.ok result) := by
  cases hsp : schemaParse args.toolArgs with
  | error e =>
    refine Or.inl ⟨e, ?_, Or.inl rfl⟩
    unfold createPaidCallback
    simp only [hsp]
  | ok u =>
    cases hdec : fac.decodePayment args.payment with
    | error e =>
      refine Or.inl ⟨e, ?_, Or.inr rfl⟩
      unfold createPaidCallback
      simp only [hsp, hdec]
    | ok decoded =>
      cases hgen : generateRequirements fac.assetFor { decoded with x402Version := ver }
          name price recipient "base" with
      | error e =>
        refine Or.inr (Or.inl ⟨e, ?_⟩)
        unfold createPaidCallback
        simp only [hsp, hdec, hgen]
      | ok req =>
        cases hv : verifyPayment fac.verify { decoded with x402Version := ver } req with
        | error e =>
          refine Or.inr (Or.inl ⟨e, ?_⟩)
          unfold createPaidCallback
          simp only [hsp, hdec, hgen, hv]
        | ok u2 =>
          cases hcb : runToolCallback cb args.toolArgs context with
          | error e =>
            refine Or.inr (Or.inl ⟨e, ?_⟩)
            unfold createPaidCallback
            simp only [hsp, hdec, hgen, hv, hcb]
          | ok result =>
            cases hset : settlePayment fac.settle { decoded with x402Version := ver } req with
            | error e =>
              refine Or.inr (Or.inl ⟨e, ?_⟩)
              unfold createPaidCallback
              simp only [hsp, hdec, hgen, hv, hcb, hset]
            | ok s =>
              refine Or.inr (Or.inr ⟨result, s.transaction, ?_, rfl⟩)
              unfold createPaidCallback
              simp only [hsp, hdec, hgen, hv, hcb, hset]

theorem invalid_verification_blocks_handler_witness :
    (wFacInvalid.verify { wPayload with x402Version := 1 } wReq).isValid = false ∧
      ((createPaidCallback wFacInvalid 1 "t" 1 "0xR" wParse wCb
          ⟨"tok", []⟩ "ctx").2.handlerCalls = 0 ∧
        (createPaidCallback wFacInvalid 1 "t" 1 "0xR" wParse wCb ⟨"tok", []⟩ "ctx").1 =
          Except.ok { content :=
            [{ type := "text",
               text := enrichVerificationError wReq
                 (wFacInvalid.verify { wPayload with x402Version := 1 } wReq).invalidReason,
               isError := true }] }) :=
  ⟨by decide,
    invalid_verification_blocks_handler wFacInvalid 1 "t" 1 "0xR" wParse wCb
      ⟨"tok", []⟩ "ctx" wPayload wReq (by decide) (by decide) (by decide) (by decide)⟩

theorem success_appends_payment_segment_witness :
    runToolCallback wCb [] "ctx" = Except.ok ⟨[⟨"text", "hi", false⟩]⟩ ∧
      (createPaidCallback wFac 1 "t" 1 "0xR" wParse wCb ⟨"tok", []⟩ "ctx").1 =
        Except.ok { content := (⟨[⟨"text", "hi", false⟩]⟩ : CallToolResult).content ++
          [{ type := "text",
             text := "Payment: " ++
               (wFac.settle { wPayload with x402Version := 1 } wReq).transaction,
             isError := false }] } :=
  ⟨by decide,
    success_appends_payment_segment wFac 1 "t" 1 "0xR" wParse wCb ⟨"tok", []⟩ "ctx"
      wPayload wReq ⟨[⟨"text", "hi", false⟩]⟩ (by decide) (by decide) (by decide)
      (by decide) (by decide) (by decide)⟩

theorem settle_failure_reports_reason_verbatim_witness :
    (wFacSettleFail.settle { wPayload with x402Version := 1 } wReq).errorReason =
        some "settlement rejected by facilitator" ∧
      ((createPaidCallback wFacSettleFail 1 "t" 1 "0xR" wParse wCb
          ⟨"tok", []⟩ "ctx").2.handlerCalls = 1 ∧
        (createPaidCallback wFacSettleFail 1 "t" 1 "0xR" wParse wCb ⟨"tok", []⟩ "ctx").1 =
          Except.ok { content :=
            [{ type := "text",
               text := "settlement rejected by facilitator",
               isError := true }] }) :=
  ⟨by decide,
    settle_failure_reports_reason_verbatim wFacSettleFail 1 "t" 1 "0xR" wParse wCb
      ⟨"tok", []⟩ "ctx" wPayload wReq ⟨[⟨"text", "hi", false⟩]⟩
      "settlement rejected by facilitator" (by decide) (by decide) (by decide)
      (by decide) (by decide) (by decide) (by decide)⟩

theorem scheme_network_mismatch_early_rejection_witness :
    ¬((⟨1, "exact", "ethereum"⟩ : PaymentPayload).scheme = "exact" ∧
        (⟨1, "exact", "ethereum"⟩ : PaymentPayload).network = "base") ∧
      ((createPaidCallback wFacWrongNetwork 1 "t" 1 "0xR" wParse wCb ⟨"tok", []⟩ "ctx").1 =
          Except.ok (errEnvelope "No matching payment requirements found") ∧
        (createPaidCallback wFacWrongNetwork 1 "t" 1 "0xR" wParse wCb
          ⟨"tok", []⟩ "ctx").2.verifyCalls = 0 ∧
        (createPaidCallback wFacWrongNetwork 1 "t" 1 "0xR" wParse wCb
          ⟨"tok", []⟩ "ctx").2.settleCalls = 0) :=
  ⟨by decide,
    scheme_network_mismatch_early_rejection wFacWrongNetwork 1 "t" 1 "0xR" wParse wCb
      ⟨"tok", []⟩ "ctx" ⟨1, "exact", "ethereum"⟩ wAsset (by decide) (by decide)
      (by decide) (by decide)⟩

/-- C2 counterexample: a payment-token decode failure does not produce the
structured envelope — the raw exception propagates out of the paid
callback (`Except.error`, not a returned result with `isError` true),
falsifying the claim for the token-decode failure case. -/
theorem decode_failure_raw_exception_counterexample :
    (createPaidCallback cFacDecodeFail 1 "t" 1 "0xR" wParse wCb ⟨"tok", []⟩ "ctx").1 =
      Except.error "invalid payment token" := by decide

/-! Helper lemmas about the facade's argument-consuming steps. -/

theorem takeDescription_snd (l : List JSArg) :
    (takeDescription l).2 = l ∨
      ∃ s t, l = JSArg.str s :: t ∧ (takeDescription l).2 = t := by
  cases l with
  | nil => exact Or.inl rfl
  | cons a t =>
    cases a with
    | str s => exact Or.inr ⟨s, t, rfl, rfl⟩
    | obj fields => exact Or.inl rfl
    | func n => exact Or.inl rfl
    | jsNull => exact Or.inl rfl
    | other => exact Or.inl rfl

theorem takePaymentOptions_of_none {l : List JSArg}
    (h : ∀ a ∈ l, isPaymentOptionsArg a = false) :
    takePaymentOptions l = (none, l) := by
  cases l with
  | nil => rfl
  | cons a t =>
    have hfalse := h a (List.mem_cons_self a t)
    simp [takePaymentOptions, hfalse]

theorem takeDescription_length (l : List JSArg) :
    l.length ≤ (takeDescription l).2.length + 1 := by
  rcases takeDescription_snd l with h | ⟨s, t, hl, h⟩
  · rw [h]; exact Nat.le_succ _
  · rw [h, hl]; simp

theorem takePaymentOptions_length (l : List JSArg) :
    l.length ≤ (takePaymentOptions l).2.length + 1 := by
  cases l with
  | nil => simp [takePaymentOptions]
  | cons a t =>
    by_cases hc : isPaymentOptionsArg a = true <;>
      simp [takePaymentOptions, hc, Nat.le_succ]

theorem takeSchemaOrAnnotationsStep_length (l : List JSArg) :
    l.length ≤ (takeSchemaOrAnnotationsStep l).2.2.length + 1 := by
  cases l with
  | nil => simp [takeSchemaOrAnnotationsStep]
  | cons a t =>
    by_cases h1 : isZodRawShape a = true <;>
      by_cases h2 : isAnnotationsArg a = true <;>
        simp [takeSchemaOrAnnotationsStep, h1, h2, Nat.le_succ]

theorem takeAnnotationsStep_length (l : List JSArg) :
    l.length ≤ (takeAnnotationsStep l).2.length + 1 := by
  cases l with
  | nil => simp [takeAnnotationsStep]
  | cons a t =>
    by_cases hc : isAnnotationsArg a = true <;>
      simp [takeAnnotationsStep, hc, Nat.le_succ]

/-- C7: when no supplied positional argument is a `PaymentOptions`-shaped
object (a non-null object containing both a `price` and a `recipient`
property), the registration throws a configuration error — the tool is
never handed to the registry. -/
theorem missing_payment_options_throws (name : String) (rest0 : List JSArg)
    (h : rest0.all (fun a => !(isPaymentOptionsArg a)) = true) :
    ∃ msg, paidTool name rest0 = Except.error msg := by
  have hall : ∀ a ∈ rest0, isPaymentOptionsArg a = false := by
    intro a ha
    have := List.all_eq_true.mp h a ha
    simpa using this
  have h1 : ∀ a ∈ (takeDescription rest0).2, isPaymentOptionsArg a = false := by
    rcases takeDescription_snd rest0 with heq | ⟨s, t, hl, heq⟩
    · rw [heq]; exact hall
    · rw [heq]
      intro a ha
      exact hall a (by rw [hl]; exact List.mem_cons_of_mem _ ha)
  have h2 : takePaymentOptions (takeDescription rest0).2 =
      (none, (takeDescription rest0).2) := takePaymentOptions_of_none h1
  simp only [paidTool, h2]
  split
  · exact ⟨_, rfl⟩
  · exact ⟨_, rfl⟩

theorem missing_payment_options_throws_witness :
    ([JSArg.func 1].all (fun a => !(isPaymentOptionsArg a)) = true) ∧
      ∃ msg, paidTool "t" [JSArg.func 1] = Except.error msg :=
  ⟨by decide, missing_payment_options_throws "t" [JSArg.func 1] (by decide)⟩

/-- C8, amended: when more positional arguments are supplied than the
largest recognised registration shape accepts (more than five trailing
arguments — description, payment options, schema, annotations, handler),
`paidTool` throws `'Too many arguments to paidTool()'`. The absence of a
handler in the tail position, however, is never checked and throws
nothing (see the counterexample). -/
theorem too_many_arguments_throws (name : String) (rest0 : List JSArg)
    (h : 5 < rest0.length) :
    paidTool name rest0 = Except.error "Too many arguments to paidTool()" := by
  have h1 := takeDescription_length rest0
  have h2 := takePaymentOptions_length (takeDescription rest0).2
  have h3 := takeSchemaOrAnnotationsStep_length
    (takePaymentOptions (takeDescription rest0).2).2
  have h4 := takeAnnotationsStep_length
    (takeSchemaOrAnnotationsStep (takePaymentOptions (takeDescription rest0).2).2).2.2
  have hlen : 1 < (takeAnnotationsStep (takeSchemaOrAnnotationsStep
      (takePaymentOptions (takeDescription rest0).2).2).2.2).2.length := by omega
  simp only [paidTool]
  rw [if_pos hlen]

theorem too_many_arguments_throws_witness :
    5 < ([JSArg.other, JSArg.other, JSArg.other, JSArg.other, JSArg.other,
        JSArg.other] : List JSArg).length ∧
      paidTool "t" [JSArg.other, JSArg.other, JSArg.other, JSArg.other, JSArg.other,
        JSArg.other] = Except.error "Too many arguments to paidTool()" :=
  ⟨by decide,
    too_many_arguments_throws "t" [JSArg.other, JSArg.other, JSArg.other, JSArg.other,
      JSArg.other, JSArg.other] (by decide)⟩

/-- C8 counterexample: a registration whose argument list carries no
function anywhere — so no handler is present in the tail position —
registers successfully instead of throwing a configuration error. -/
theorem no_handler_check_counterexample :
    paidTool "t" [poArg] = Except.ok regNoHandler ∧
      [poArg].all (fun a => !(isFunctionArg a)) = true := by decide

/-- C9 counterexample: a successful paid registration whose effective schema
is the injected `payment` field, described as
`'The x402 payment header for the query.'` — not as
`'the payment proof for this call.'` as the claim states. -/
theorem payment_field_description_counterexample :
    (paidTool "t" [poArg, JSArg.func 2]).map (fun r => r.finalSchema) =
        Except.ok [("payment", paymentField)] ∧
      ¬paymentField.fdesc = "the payment proof for this call." := by decide

/-- C9, amended: for every successful paid tool registration whose declared
schema has no field already named `payment`, the effective schema handed
to the registry is the declared schema (empty when none was declared)
extended with exactly one extra trailing field named `payment`, a required
string whose description is `'The x402 payment header for the query.'`. -/
theorem final_schema_appends_payment_field (name : String) (rest0 : List JSArg)
    (reg : Registration) (h : paidTool name rest0 = Except.ok reg)
    (hnp : (reg.inputSchema.getD []).all (fun kv => !(kv.1 == "payment")) = true) :
    reg.finalSchema = (reg.inputSchema.getD []) ++ [("payment", paymentField)] ∧
      paymentField.ftype = "string" ∧ paymentField.freq = true ∧
      paymentField.fdesc = "The x402 payment header for the query." := by
  simp only [paidTool] at h
  split at h
  · exact absurd h (by simp)
  · split at h
    · exact absurd h (by simp)
    · injection h with h2
      subst h2
      simp only at hnp ⊢
      refine ⟨?_, rfl, rfl, rfl⟩
      cases hin : ((takeSchemaOrAnnotationsStep
          (takePaymentOptions (takeDescription rest0).2).2).1).map objFields with
      | none => simp [hin, buildFinalSchema]
      | some inp =>
        rw [hin] at hnp
        simp only [Option.getD_some, List.all_eq_true] at hnp
        have hall : ∀ kv ∈ inp, (kv.1 == "payment") = false := by
          intro kv hkv
          have hx := hnp kv hkv
          simp only [Bool.not_eq_true'] at hx
          exact hx
        have hany : inp.any (fun kv => kv.1 == "payment") = false := by
          rw [← Bool.not_eq_true, List.any_eq_true]
          rintro ⟨kv, hkv, hbeq⟩
          rw [hall kv hkv] at hbeq
          cases hbeq
        simp [buildFinalSchema, hany]

theorem final_schema_appends_payment_field_witness :
    paidTool "t" [poArg, JSArg.obj [("account", zodStrField)], JSArg.func 2] =
        Except.ok c9Reg ∧
      (c9Reg.finalSchema = (c9Reg.inputSchema.getD []) ++ [("payment", paymentField)] ∧
        paymentField.ftype = "string" ∧ paymentField.freq = true ∧
        paymentField.fdesc = "The x402 payment header for the query.") :=
  ⟨by decide,
    final_schema_appends_payment_field "t"
      [poArg, JSArg.obj [("account", zodStrField)], JSArg.func 2] c9Reg
      (by decide) (by decide)⟩

end Payflow
